import Mathlib

/-!
Verification development for the formbricks_worktrial backend service.
The Go source is shallowly embedded: the dynamic SQL query builder for
experience listing and search, the pagination arithmetic, the mutation
validation, the API-key validation (including its SHA-256 key digest),
the auth middleware, and the HTTP handler error mapping are translated
into executable Lean definitions, and the specification claims are
stated and settled as theorems about those definitions.

Modelling conventions:
- Go `string` is `String`; Go pointers `*T` used as optional fields are
  `Option T`; `time.Time` is an abstract instant modelled as `Int`;
  `float64` values are never computed with, so they are carried opaquely
  as `Int`; `json.RawMessage` is carried as `String`.
- Go `int` is modelled as `Int` (two's-complement wraparound at 2^63 is
  outside the model; none of the verified properties depend on values
  anywhere near that magnitude).
- The SQL store is modelled as a Lean list of records, and each SQL
  fragment emitted by the query builder is given its documented
  predicate semantics over such a list.
-/

/-! ## SHA-256 (from crypto/sha256, as used by repository.HashAPIKey)
32-bit words are `Nat` kept below `2^32` by explicit masking. -/

def w32 (n : Nat) : Nat := n % 4294967296

def rotr32 (x n : Nat) : Nat :=
  w32 ((x >>> n) ||| (x <<< (32 - n)))

def mask32 : Nat := 4294967295

def bigSigma0 (x : Nat) : Nat := rotr32 x 2 ^^^ rotr32 x 13 ^^^ rotr32 x 22

def bigSigma1 (x : Nat) : Nat := rotr32 x 6 ^^^ rotr32 x 11 ^^^ rotr32 x 25

def smallSigma0 (x : Nat) : Nat := rotr32 x 7 ^^^ rotr32 x 18 ^^^ (x >>> 3)

def smallSigma1 (x : Nat) : Nat := rotr32 x 17 ^^^ rotr32 x 19 ^^^ (x >>> 10)

def chFn (e f g : Nat) : Nat := (e &&& f) ^^^ ((e ^^^ mask32) &&& g)

def majFn (a b c : Nat) : Nat := (a &&& b) ^^^ (a &&& c) ^^^ (b &&& c)

def sha256K : List Nat :=
  [1116352408, 1899447441, 3049323471, 3921009573, 961987163,
   1508970993, 2453635748, 2870763221, 3624381080, 310598401,
   607225278, 1426881987, 1925078388, 2162078206, 2614888103,
   3248222580, 3835390401, 4022224774, 264347078, 604807628,
   770255983, 1249150122, 1555081692, 1996064986, 2554220882,
   2821834349, 2952996808, 3210313671, 3336571891, 3584528711,
   113926993, 338241895, 666307205, 773529912, 1294757372,
   1396182291, 1695183700, 1986661051, 2177026350, 2456956037,
   2730485921, 2820302411, 3259730800, 3345764771, 3516065817,
   3600352804, 4094571909, 275423344, 430227734, 506948616,
   659060556, 883997877, 958139571, 1322822218, 1537002063,
   1747873779, 1955562222, 2024104815, 2227730452, 2361852424,
   2428436474, 2756734187, 3204031479, 3329325298]

def sha256H0 : List Nat :=
  [1779033703, 3144134277, 1013904242, 2773480762,
   1359893119, 2600822924, 528734635, 1541459225]

/-- Big-endian byte expansion of `n` into exactly `k` bytes. -/
def beBytes : Nat → Nat → List Nat
  | 0, _ => []
  | k + 1, n => beBytes k (n / 256) ++ [n % 256]

/-- FIPS 180-4 padding: append `0x80`, zero bytes to 56 mod 64, then the
bit length as 8 big-endian bytes. -/
def sha256pad (msg : List Nat) : List Nat :=
  let len := msg.length
  let zeros := (119 - len % 64) % 64
  msg ++ [0x80] ++ List.replicate zeros 0 ++ beBytes 8 (len * 8)

def bytesToWords : List Nat → List Nat
  | a :: b :: c :: d :: rest =>
      (a * 16777216 + b * 65536 + c * 256 + d) :: bytesToWords rest
  | _ => []

def toBlocksAux : Nat → List Nat → List (List Nat)
  | 0, _ => []
  | n + 1, l => l.take 64 :: toBlocksAux n (l.drop 64)

def toBlocks (l : List Nat) : List (List Nat) := toBlocksAux (l.length / 64) l

/-- One message-schedule extension step: appends word `W[t]` computed
from `W[t-2]`, `W[t-7]`, `W[t-15]`, `W[t-16]`. -/
def schedStep (w : List Nat) : List Nat :=
  let t := w.length
  w ++ [w32 (smallSigma1 (w.getD (t - 2) 0) + w.getD (t - 7) 0 +
             smallSigma0 (w.getD (t - 15) 0) + w.getD (t - 16) 0)]

def schedule (block : List Nat) : List Nat :=
  Nat.repeat schedStep 48 (bytesToWords block)

/-- One SHA-256 compression round on the state `[a,b,c,d,e,f,g,h]`. -/
def sha256Round (s : List Nat) (k w : Nat) : List Nat :=
  match s with
  | [a, b, c, d, e, f, g, h] =>
      let t1 := w32 (h + bigSigma1 e + chFn e f g + k + w)
      let t2 := w32 (bigSigma0 a + majFn a b c)
      [w32 (t1 + t2), a, b, c, w32 (d + t1), e, f, g]
  | other => other

def sha256Compress (h : List Nat) (block : List Nat) : List Nat :=
  let ws := schedule block
  let s := (sha256K.zip ws).foldl (fun st kw => sha256Round st kw.1 kw.2) h
  (h.zip s).map (fun p => w32 (p.1 + p.2))

/-- SHA-256 digest of a byte sequence, as eight 32-bit words. -/
def sha256 (msg : List Nat) : List Nat :=
  (toBlocks (sha256pad msg)).foldl sha256Compress sha256H0

/-- UTF-8 encoding of one code point (Go strings are UTF-8 bytes). -/
def utf8Bytes (c : Char) : List Nat :=
  let n := c.toNat
  if n < 0x80 then [n]
  else if n < 0x800 then [0xc0 + n / 64, 0x80 + n % 64]
  else if n < 0x10000 then [0xe0 + n / 4096, 0x80 + n / 64 % 64, 0x80 + n % 64]
  else [0xf0 + n / 262144, 0x80 + n / 4096 % 64, 0x80 + n / 64 % 64, 0x80 + n % 64]

def strBytes (s : String) : List Nat :=
  s.data.foldr (fun c acc => utf8Bytes c ++ acc) []

def hexDigit (n : Nat) : Char := "0123456789abcdef".data.getD n '0'

def word32Hex (n : Nat) : String :=
  String.mk ((List.range 8).map (fun i => hexDigit (n / 16 ^ (7 - i) % 16)))

/-- repository.HashAPIKey: hex-encoded SHA-256 digest of the raw key. -/
def HashAPIKey (apiKey : String) : String :=
  String.join ((sha256 (strBytes apiKey)).map word32Hex)

/-! ## Data model (internal/models/experience.go, api_key.go) -/

/-- models.ExperienceData. Optional (pointer) fields are `Option`;
timestamps are abstract instants (`Int`); `valueNumber` (float64) is
carried opaquely; `valueJson`/`metadata` (raw JSON bytes) as `String`. -/
structure ExperienceData where
  id : String
  collectedAt : Int
  createdAt : Int
  updatedAt : Int
  sourceType : String
  sourceId : Option String
  sourceName : Option String
  fieldId : String
  fieldLabel : Option String
  fieldType : String
  valueText : Option String
  valueNumber : Option Int
  valueBoolean : Option Bool
  valueDate : Option Int
  valueJson : Option String
  metadata : Option String
  language : Option String
  userIdentifier : Option String
deriving Repr, DecidableEq

/-- models.CreateExperienceRequest. -/
structure CreateExperienceRequest where
  collectedAt : Option Int
  sourceType : String
  sourceId : Option String
  sourceName : Option String
  fieldId : String
  fieldLabel : Option String
  fieldType : String
  valueText : Option String
  valueNumber : Option Int
  valueBoolean : Option Bool
  valueDate : Option Int
  valueJson : Option String
  metadata : Option String
  language : Option String
  userIdentifier : Option String
deriving Repr, DecidableEq

/-- models.UpdateExperienceRequest: every field optional. -/
structure UpdateExperienceRequest where
  sourceType : Option String
  sourceId : Option String
  sourceName : Option String
  fieldId : Option String
  fieldLabel : Option String
  fieldType : Option String
  valueText : Option String
  valueNumber : Option Int
  valueBoolean : Option Bool
  valueDate : Option Int
  valueJson : Option String
  metadata : Option String
  language : Option String
  userIdentifier : Option String
deriving Repr, DecidableEq

/-- models.ListExperiencesFilters. -/
structure ListExperiencesFilters where
  sourceType : Option String
  sourceId : Option String
  fieldId : Option String
  userIdentifier : Option String
  limit : Int
  offset : Int
deriving Repr, DecidableEq

/-- models.SearchExperiencesRequest. -/
structure SearchExperiencesRequest where
  query : Option String
  sourceType : Option String
  sourceId : Option String
  fieldId : Option String
  fieldType : Option String
  userIdentifier : Option String
  startDate : Option Int
  endDate : Option Int
  pageSize : Int
  page : Int
deriving Repr, DecidableEq

/-- models.APIKey. -/
structure APIKey where
  id : String
  keyHash : String
  name : Option String
  isActive : Bool
  createdAt : Int
  updatedAt : Int
  lastUsedAt : Option Int
deriving Repr, DecidableEq

/-! ## Dynamic query builder (ExperienceRepository.List / Search)

The Go code builds, per present filter, one SQL predicate template (a
`fmt.Sprintf` with a `$n` placeholder) and, in lockstep, one bound
argument. We embed each template as a `SqlCond` constructor carrying the
bound value; `condText` renders the exact template text (the Go source's
literal newlines and tab indentation inside the ILIKE group are
normalized to single spaces), and `condArg` yields the bound argument. -/

/-- A value passed in the bound-parameter list of a query. -/
inductive SqlVal
  | str (s : String)
  | int (n : Int)
  | time (t : Int)
deriving Repr, DecidableEq

inductive SqlCond
  | textSearch (q : String)
  | eqSourceType (v : String)
  | eqSourceId (v : String)
  | eqFieldId (v : String)
  | eqFieldType (v : String)
  | eqUserIdentifier (v : String)
  | geCollectedAt (t : Int)
  | leCollectedAt (t : Int)
deriving Repr, DecidableEq

/-- The predicate-template text for one condition, with `$n` as the
placeholder index. No filter value occurs in this text. -/
def condText (c : SqlCond) (n : Nat) : String :=
  match c with
  | .textSearch _ =>
      "( value_text ILIKE $" ++ toString n ++ " OR field_label ILIKE $" ++ toString n ++
      " OR source_name ILIKE $" ++ toString n ++ " OR field_id ILIKE $" ++ toString n ++ " )"
  | .eqSourceType _ => "source_type = $" ++ toString n
  | .eqSourceId _ => "source_id = $" ++ toString n
  | .eqFieldId _ => "field_id = $" ++ toString n
  | .eqFieldType _ => "field_type = $" ++ toString n
  | .eqUserIdentifier _ => "user_identifier = $" ++ toString n
  | .geCollectedAt _ => "collected_at >= $" ++ toString n
  | .leCollectedAt _ => "collected_at <= $" ++ toString n

/-- The one bound argument appended in lockstep with the condition; the
free-text search wraps the query in `%`-wildcards. -/
def condArg (c : SqlCond) : SqlVal :=
  match c with
  | .textSearch q => .str ("%" ++ q ++ "%")
  | .eqSourceType v => .str v
  | .eqSourceId v => .str v
  | .eqFieldId v => .str v
  | .eqFieldType v => .str v
  | .eqUserIdentifier v => .str v
  | .geCollectedAt t => .time t
  | .leCollectedAt t => .time t

def optCond (o : Option String) (f : String → SqlCond) : List SqlCond :=
  match o with
  | some v => [f v]
  | none => []

def optCondTime (o : Option Int) (f : Int → SqlCond) : List SqlCond :=
  match o with
  | some t => [f t]
  | none => []

/-- The free-text group contributes a condition only when the query is
present and non-empty (`req.Query != nil && *req.Query != ""`). -/
def queryCond (o : Option String) : List SqlCond :=
  match o with
  | some q => if q = "" then [] else [SqlCond.textSearch q]
  | none => []

/-- The ordered condition list ExperienceRepository.Search builds: the
free-text group first (only when the query is present and non-empty),
then the equality filters, then the date bounds. -/
def searchConds (req : SearchExperiencesRequest) : List SqlCond :=
  queryCond req.query ++
  optCond req.sourceType .eqSourceType ++
  optCond req.sourceId .eqSourceId ++
  optCond req.fieldId .eqFieldId ++
  optCond req.fieldType .eqFieldType ++
  optCond req.userIdentifier .eqUserIdentifier ++
  optCondTime req.startDate .geCollectedAt ++
  optCondTime req.endDate .leCollectedAt

/-- The ordered condition list ExperienceRepository.List builds. -/
def listConds (f : ListExperiencesFilters) : List SqlCond :=
  optCond f.sourceType .eqSourceType ++
  optCond f.sourceId .eqSourceId ++
  optCond f.fieldId .eqFieldId ++
  optCond f.userIdentifier .eqUserIdentifier

/-- Renders the condition templates with consecutive placeholder
indices starting at `n` (the Go `argCount` counter). -/
def renderConds : List SqlCond → Nat → List String
  | [], _ => []
  | c :: cs, n => condText c n :: renderConds cs (n + 1)

/-- " WHERE c1 AND c2 AND ..." when conditions exist, else "". -/
def whereClause (conds : List SqlCond) : String :=
  if conds.isEmpty then "" else " WHERE " ++ String.intercalate " AND " (renderConds conds 1)

/-- The shared SELECT column list (whitespace normalized). -/
def selectBase : String :=
  "SELECT id, collected_at, created_at, updated_at, source_type, source_id, source_name, " ++
  "field_id, field_label, field_type, value_text, value_number, value_boolean, value_date, " ++
  "value_json, metadata, language, user_identifier FROM experience_data"

def countBase : String := "SELECT COUNT(*) FROM experience_data"

def orderByClause : String := " ORDER BY collected_at DESC"

/-- limit := req.PageSize; offset := req.Page * req.PageSize. -/
def repoLimitOffset (req : SearchExperiencesRequest) : Int × Int :=
  (req.pageSize, req.page * req.pageSize)

/-- " LIMIT $n OFFSET $n+1" with n the argCount after the filters. -/
def searchPaginationClause (req : SearchExperiencesRequest) : String :=
  " LIMIT $" ++ toString ((searchConds req).length + 1) ++
  " OFFSET $" ++ toString ((searchConds req).length + 2)

def searchCountQueryText (req : SearchExperiencesRequest) : String :=
  countBase ++ whereClause (searchConds req)

def searchDataQueryText (req : SearchExperiencesRequest) : String :=
  selectBase ++ whereClause (searchConds req) ++ orderByClause ++ searchPaginationClause req

/-- Bound arguments of the count query: one per condition, in order. -/
def searchFilterArgs (req : SearchExperiencesRequest) : List SqlVal :=
  (searchConds req).map condArg

/-- Bound arguments of the data query: the filter arguments, then the
limit and offset values. -/
def searchDataArgs (req : SearchExperiencesRequest) : List SqlVal :=
  searchFilterArgs req ++
  [SqlVal.int (repoLimitOffset req).1, SqlVal.int (repoLimitOffset req).2]

/-- The List query text: filters, ORDER BY, then LIMIT only when
limit > 0 and OFFSET only when offset > 0 (argCount keeps counting). -/
def listQueryText (f : ListExperiencesFilters) : String :=
  let n := (listConds f).length + 1
  selectBase ++ whereClause (listConds f) ++ orderByClause ++
  (if f.limit > 0 then " LIMIT $" ++ toString n else "") ++
  (if f.offset > 0 then " OFFSET $" ++ toString (if f.limit > 0 then n + 1 else n) else "")

def listArgs (f : ListExperiencesFilters) : List SqlVal :=
  (listConds f).map condArg ++
  (if f.limit > 0 then [SqlVal.int f.limit] else []) ++
  (if f.offset > 0 then [SqlVal.int f.offset] else [])

/-! ### Presence profiles: which optional filters contribute a clause -/

structure SearchProfile where
  hasQuery : Bool
  hasSourceType : Bool
  hasSourceId : Bool
  hasFieldId : Bool
  hasFieldType : Bool
  hasUserIdentifier : Bool
  hasStartDate : Bool
  hasEndDate : Bool
deriving Repr, DecidableEq

def searchProfile (req : SearchExperiencesRequest) : SearchProfile where
  hasQuery := req.query.elim false (fun q => q != "")
  hasSourceType := req.sourceType.isSome
  hasSourceId := req.sourceId.isSome
  hasFieldId := req.fieldId.isSome
  hasFieldType := req.fieldType.isSome
  hasUserIdentifier := req.userIdentifier.isSome
  hasStartDate := req.startDate.isSome
  hasEndDate := req.endDate.isSome

structure ListProfile where
  hasSourceType : Bool
  hasSourceId : Bool
  hasFieldId : Bool
  hasUserIdentifier : Bool
  hasLimit : Bool
  hasOffset : Bool
deriving Repr, DecidableEq

def listProfile (f : ListExperiencesFilters) : ListProfile where
  hasSourceType := f.sourceType.isSome
  hasSourceId := f.sourceId.isSome
  hasFieldId := f.fieldId.isSome
  hasUserIdentifier := f.userIdentifier.isSome
  hasLimit := f.limit > 0
  hasOffset := f.offset > 0

/-! ## Predicate semantics of the emitted SQL over a list-modelled store

`ILIKE` applied to the pattern `"%" ++ q ++ "%"` is modelled, following
the spec (§4.2: "parity with a simple contains operator"), as
case-insensitive substring containment; interpretation of LIKE
metacharacters occurring inside the query string itself is delegated to
the external store and is outside this model. A SQL comparison against a
NULL column is not satisfied. -/

/-- Bool-valued: `pat` occurs as a contiguous run inside `hay`. -/
def infixOf (pat : List Char) : List Char → Bool
  | [] => pat.isEmpty
  | c :: rest => pat.isPrefixOf (c :: rest) || infixOf pat rest

/-- Character-wise lowercase folding (ASCII, which covers the case
folding the verified scenarios exercise). -/
def lowerStr (s : String) : List Char :=
  s.data.map Char.toLower

/-- Case-insensitive substring containment. -/
def containsCI (hay pat : String) : Bool :=
  infixOf (lowerStr pat) (lowerStr hay)

/-- NULL-aware containment: a NULL column satisfies no ILIKE clause. -/
def optContainsCI (hay : Option String) (pat : String) : Bool :=
  match hay with
  | some s => containsCI s pat
  | none => false

/-- Meaning of one emitted SQL condition over one record. -/
def condSem (c : SqlCond) (r : ExperienceData) : Bool :=
  match c with
  | .textSearch q =>
      optContainsCI r.valueText q || optContainsCI r.fieldLabel q ||
      optContainsCI r.sourceName q || containsCI r.fieldId q
  | .eqSourceType v => r.sourceType == v
  | .eqSourceId v => r.sourceId == some v
  | .eqFieldId v => r.fieldId == v
  | .eqFieldType v => r.fieldType == v
  | .eqUserIdentifier v => r.userIdentifier == some v
  | .geCollectedAt t => decide (t ≤ r.collectedAt)
  | .leCollectedAt t => decide (r.collectedAt ≤ t)

/-- The WHERE clause of a search: conjunction of all present filters
(no conditions means every row qualifies). -/
def searchPred (req : SearchExperiencesRequest) (r : ExperienceData) : Bool :=
  (searchConds req).all (fun c => condSem c r)

/-- ORDER BY collected_at DESC (insertion sort; ties keep store order,
which the spec leaves open). -/
def insertDesc (x : ExperienceData) : List ExperienceData → List ExperienceData
  | [] => [x]
  | y :: ys => if y.collectedAt ≤ x.collectedAt then x :: y :: ys else y :: insertDesc x ys

def sortByCollectedDesc (l : List ExperienceData) : List ExperienceData :=
  l.foldr insertDesc []

/-- A Go slice built by appending scanned rows: it stays nil (`none`)
when no row was appended. -/
def goSliceOf (l : List ExperienceData) : Option (List ExperienceData) :=
  if l.isEmpty then none else some l

/-- Rows ExperienceRepository.Search returns: filtered, ordered, then
OFFSET/LIMIT applied (both nonnegative for every normalized request). -/
def repoSearchRows (db : List ExperienceData) (req : SearchExperiencesRequest) : List ExperienceData :=
  (((sortByCollectedDesc (db.filter (searchPred req))).drop
      (repoLimitOffset req).2.toNat).take (repoLimitOffset req).1.toNat)

/-- SELECT COUNT(*) with the same WHERE clause. -/
def repoSearchCount (db : List ExperienceData) (req : SearchExperiencesRequest) : Int :=
  ((db.filter (searchPred req)).length : Int)

/-! ## Service layer (service.ExperienceService) -/

/-- models.SearchExperiencesResponse; `data = none` would be a nil
slice, which the service never emits. -/
structure SearchExperiencesResponse where
  data : Option (List ExperienceData)
  page : Int
  pageSize : Int
  totalCount : Int
  totalPages : Int
deriving Repr, DecidableEq

/-- The defaulting and clamping SearchExperiences applies before
calling the repository: pageSize ≤ 0 becomes 20, then pageSize > 40
becomes 40; a negative page becomes 0. -/
def normalizeSearchReq (req : SearchExperiencesRequest) : SearchExperiencesRequest :=
  let ps0 := if req.pageSize ≤ 0 then 20 else req.pageSize
  let ps := if ps0 > 40 then 40 else ps0
  let pg := if req.page < 0 then 0 else req.page
  { req with pageSize := ps, page := pg }

/-- totalPages := totalCount / pageSize, plus one when a nonzero
remainder exists. Lean's `/` on `Int` is Euclidean and Go's truncates,
but both operands here are nonnegative, where the two conventions (and
`%`) coincide. -/
def totalPagesCalc (totalCount pageSize : Int) : Int :=
  totalCount / pageSize + (if totalCount % pageSize > 0 then 1 else 0)

/-- service.SearchExperiences over the list-modelled store: normalize
the request, run the count and data queries, compute pagination
metadata, and replace a nil data slice by an empty one. -/
def SearchExperiences (db : List ExperienceData) (req : SearchExperiencesRequest) :
    SearchExperiencesResponse :=
  let r := normalizeSearchReq req
  let rows := repoSearchRows db r
  let totalCount := repoSearchCount db r
  let totalPages := totalPagesCalc totalCount r.pageSize
  let dataSlice :=
    match goSliceOf rows with
    | none => some []
    | some l => some l
  { data := dataSlice, page := r.page, pageSize := r.pageSize,
    totalCount := totalCount, totalPages := totalPages }

/-! ## Point lookup and mutations (ExperienceRepository, service) -/

/-- ExperienceRepository.GetByID over the list-modelled store: the
no-rows case becomes the "experience not found" error. -/
def getById (db : List ExperienceData) (id : String) : Except String ExperienceData :=
  match db.find? (fun r => r.id == id) with
  | some r => .ok r
  | none => .error "experience not found"

/-- True when at least one field of the update request is present, i.e.
the Go `updates` list is non-empty. -/
def hasUpdates (req : UpdateExperienceRequest) : Bool :=
  req.sourceType.isSome || req.sourceId.isSome || req.sourceName.isSome ||
  req.fieldId.isSome || req.fieldLabel.isSome || req.fieldType.isSome ||
  req.valueText.isSome || req.valueNumber.isSome || req.valueBoolean.isSome ||
  req.valueDate.isSome || req.valueJson.isSome || req.metadata.isSome ||
  req.language.isSome || req.userIdentifier.isSome

/-- The SET list of the UPDATE statement: each present field overwrites
its column, and updated_at is set to the statement timestamp. -/
def applyUpdate (req : UpdateExperienceRequest) (now : Int) (r : ExperienceData) : ExperienceData :=
  { r with
    sourceType := req.sourceType.getD r.sourceType
    sourceId := req.sourceId.elim r.sourceId (fun v => some v)
    sourceName := req.sourceName.elim r.sourceName (fun v => some v)
    fieldId := req.fieldId.getD r.fieldId
    fieldLabel := req.fieldLabel.elim r.fieldLabel (fun v => some v)
    fieldType := req.fieldType.getD r.fieldType
    valueText := req.valueText.elim r.valueText (fun v => some v)
    valueNumber := req.valueNumber.elim r.valueNumber (fun v => some v)
    valueBoolean := req.valueBoolean.elim r.valueBoolean (fun v => some v)
    valueDate := req.valueDate.elim r.valueDate (fun v => some v)
    valueJson := req.valueJson.elim r.valueJson (fun v => some v)
    metadata := req.metadata.elim r.metadata (fun v => some v)
    language := req.language.elim r.language (fun v => some v)
    userIdentifier := req.userIdentifier.elim r.userIdentifier (fun v => some v)
    updatedAt := now }

/-- ExperienceRepository.Update: with zero present fields it only runs
GetByID; otherwise it executes the UPDATE ... WHERE id = $n RETURNING
statement at timestamp `now`. Returns the store after the call and the
call's result. -/
def repoUpdate (db : List ExperienceData) (id : String) (req : UpdateExperienceRequest)
    (now : Int) : List ExperienceData × Except String ExperienceData :=
  if hasUpdates req then
    match db.find? (fun r => r.id == id) with
    | none => (db, .error "experience not found")
    | some r =>
        (db.map (fun x => if x.id == id then applyUpdate req now x else x),
         .ok (applyUpdate req now r))
  else
    (db, getById db id)

/-- service.validateCreateRequest: first failing check wins. -/
def validateCreateRequest (req : CreateExperienceRequest) : Option String :=
  if req.sourceType == "" then some "source_type is required"
  else if req.fieldId == "" then some "field_id is required"
  else if req.fieldType == "" then some "field_type is required"
  else none

/-- A store call issued by the service layer. -/
inductive StoreOp
  | insert (req : CreateExperienceRequest)
deriving Repr, DecidableEq

/-- service.CreateExperience as a store-call trace: validation failure
returns the error without issuing any store call; otherwise the insert
is attempted. -/
def CreateExperience (req : CreateExperienceRequest) : Except String Unit × List StoreOp :=
  match validateCreateRequest req with
  | some e => (.error e, [])
  | none => (.ok (), [.insert req])

/-! ## API-key validation and auth middleware -/

/-- repository.ValidateAPIKey over a list-modelled key store: the
`WHERE key_hash = $1 AND is_active = true` lookup, with the no-rows
case mapped to the constant unauthorized error. (A store failure would
be wrapped separately; the store itself is modelled as available.) -/
def ValidateAPIKey (store : List APIKey) (apiKey : String) : Except String APIKey :=
  match store.find? (fun k => k.keyHash == HashAPIKey apiKey && k.isActive) with
  | some k => .ok k
  | none => .error "invalid or inactive API key"

/-- repository.UpdateLastUsedAt: one UPDATE setting last_used_at and
updated_at to the same timestamp on every row whose key_hash matches;
the affected-row count is never inspected, so the call succeeds even
when nothing matches. -/
def UpdateLastUsedAt (store : List APIKey) (keyHash : String) (now : Int) :
    List APIKey × Except String Unit :=
  (store.map (fun k =>
      if k.keyHash == keyHash then { k with lastUsedAt := some now, updatedAt := now } else k),
   .ok ())

/-- strings.SplitN(s, " ", 2): break at the first space, if any. -/
def breakAtSpace : List Char → Option (List Char × List Char)
  | [] => none
  | c :: rest =>
      if c = ' ' then some ([], rest)
      else (breakAtSpace rest).map (fun p => (c :: p.1, p.2))

def splitN2Space (s : String) : List String :=
  match breakAtSpace s.data with
  | none => [s]
  | some (a, b) => [String.mk a, String.mk b]

inductive AuthOutcome
  | reject (status : Nat) (message : String)
  | accept (key : APIKey)
deriving Repr, DecidableEq

/-- middleware.Auth: the Authorization header ("" when absent) is
checked for presence, "Bearer <key>" shape and non-empty key, then the
key is validated; every failure answers 401. -/
def Auth (store : List APIKey) (authHeader : String) : AuthOutcome :=
  if authHeader = "" then .reject 401 "Missing Authorization header"
  else
    match splitN2Space authHeader with
    | [scheme, apiKey] =>
        if String.mk (lowerStr scheme) != "bearer" then
          .reject 401 "Invalid Authorization header format. Expected: Bearer <api-key>"
        else if apiKey = "" then .reject 401 "API key is empty"
        else
          match ValidateAPIKey store apiKey with
          | .error _ => .reject 401 "Invalid or inactive API key"
          | .ok k => .accept k
    | _ => .reject 401 "Invalid Authorization header format. Expected: Bearer <api-key>"

/-! ## HTTP boundary (internal/api/handlers/experience_handler.go) -/

/-- strconv.Atoi: optional sign then at least one decimal digit.
(The int64 range check that also makes huge literals fail is outside
the model.) -/
def digitVal (c : Char) : Option Nat :=
  if '0' ≤ c ∧ c ≤ '9' then some (c.toNat - '0'.toNat) else none

def digitsToNatAux : List Char → Nat → Option Nat
  | [], acc => some acc
  | c :: cs, acc =>
      match digitVal c with
      | some d => digitsToNatAux cs (acc * 10 + d)
      | none => none

def digitsToNat (l : List Char) : Option Nat :=
  if l.isEmpty then none else digitsToNatAux l 0

def atoi (s : String) : Option Int :=
  match s.data with
  | '+' :: rest => (digitsToNat rest).map (fun n => (n : Int))
  | '-' :: rest => (digitsToNat rest).map (fun n => -(n : Int))
  | l => (digitsToNat l).map (fun n => (n : Int))

/-- The pagination-parameter section of ExperienceHandler.Search: an
absent ("" valued) parameter keeps the request's zero value; a supplied
parameter that fails to parse or is negative is answered with the 400
invalid_parameter response, and the function returns before the service
is reached. -/
def parseSearchPagination (pageSizeStr pageStr : String) : Except String (Int × Int) :=
  let psResult : Except String Int :=
    if pageSizeStr = "" then .ok 0
    else
      match atoi pageSizeStr with
      | none => .error "Invalid pageSize parameter"
      | some ps => if ps < 0 then .error "Invalid pageSize parameter" else .ok ps
  match psResult with
  | .error e => .error e
  | .ok ps =>
      if pageStr = "" then .ok (ps, 0)
      else
        match atoi pageStr with
        | none => .error "Invalid page parameter"
        | some p => if p < 0 then .error "Invalid page parameter" else .ok (ps, p)

/-- ExperienceHandler.Search restricted to its pagination parameters:
`.error` is the 400 response emitted before any service call; the
service runs only in the `.ok` branch. -/
def searchHandlerRun (db : List ExperienceData) (reqBase : SearchExperiencesRequest)
    (pageSizeStr pageStr : String) : Except String SearchExperiencesResponse :=
  match parseSearchPagination pageSizeStr pageStr with
  | .error e => .error e
  | .ok pp => .ok (SearchExperiences db { reqBase with pageSize := pp.1, page := pp.2 })

/-! ### Handler error mapping, parameterized over the store outcome -/

/-- Outcome of a single-row store query (pgx QueryRow + Scan). -/
inductive StoreLookup
  | row (r : ExperienceData)
  | noRows
  | failure (e : String)
deriving Repr, DecidableEq

/-- Outcome of a store Exec (pgx CommandTag or error). -/
inductive StoreExec
  | affected (n : Nat)
  | failure (e : String)
deriving Repr, DecidableEq

/-- ExperienceRepository.Create error wrapping: any store error is
wrapped with the attempted operation. -/
def repoCreateResult (storeOutcome : Except String ExperienceData) :
    Except String ExperienceData :=
  match storeOutcome with
  | .error e => .error ("failed to create experience: " ++ e)
  | .ok r => .ok r

/-- service.CreateExperience composed with the repository wrap. -/
def serviceCreateResult (req : CreateExperienceRequest)
    (storeOutcome : Except String ExperienceData) : Except String ExperienceData :=
  match validateCreateRequest req with
  | some e => .error e
  | none => repoCreateResult storeOutcome

/-- ExperienceHandler.Create: any service error is answered 400. -/
def createHandlerStatus (req : CreateExperienceRequest)
    (storeOutcome : Except String ExperienceData) : Nat :=
  match serviceCreateResult req storeOutcome with
  | .error _ => 400
  | .ok _ => 201

/-- ExperienceRepository.GetByID error wrapping. -/
def repoGetByIdResult (outcome : StoreLookup) : Except String ExperienceData :=
  match outcome with
  | .row r => .ok r
  | .noRows => .error "experience not found"
  | .failure e => .error ("failed to get experience: " ++ e)

/-- ExperienceHandler.Get: any service error is answered 404. -/
def getHandlerStatus (outcome : StoreLookup) : Nat :=
  match repoGetByIdResult outcome with
  | .error _ => 404
  | .ok _ => 200

/-- ExperienceRepository.Update error wrapping (UPDATE ... RETURNING). -/
def repoUpdateResult (outcome : StoreLookup) : Except String ExperienceData :=
  match outcome with
  | .row r => .ok r
  | .noRows => .error "experience not found"
  | .failure e => .error ("failed to update experience: " ++ e)

/-- ExperienceHandler.Update: any service error is answered 400. -/
def updateHandlerStatus (outcome : StoreLookup) : Nat :=
  match repoUpdateResult outcome with
  | .error _ => 400
  | .ok _ => 200

/-- ExperienceRepository.Delete: a store failure is wrapped; zero
affected rows become the not-found error. -/
def repoDeleteResult (outcome : StoreExec) : Except String Unit :=
  match outcome with
  | .failure e => .error ("failed to delete experience: " ++ e)
  | .affected 0 => .error "experience not found"
  | .affected _ => .ok ()

/-- ExperienceHandler.Delete: any service error is answered 404. -/
def deleteHandlerStatus (outcome : StoreExec) : Nat :=
  match repoDeleteResult outcome with
  | .error _ => 404
  | .ok _ => 204

/-- ExperienceRepository.List error wrapping. -/
def repoListResult (storeOutcome : Except String (List ExperienceData)) :
    Except String (List ExperienceData) :=
  match storeOutcome with
  | .error e => .error ("failed to list experiences: " ++ e)
  | .ok l => .ok l

/-- ExperienceHandler.List: any service error is answered 500. -/
def listHandlerStatus (storeOutcome : Except String (List ExperienceData)) : Nat :=
  match repoListResult storeOutcome with
  | .error _ => 500
  | .ok _ => 200

/-- ExperienceRepository.Search count-query error wrapping. -/
def repoSearchErrResult (storeOutcome : Except String Int) : Except String Int :=
  match storeOutcome with
  | .error e => .error ("failed to count experiences: " ++ e)
  | .ok n => .ok n

/-- ExperienceHandler.Search: any service error is answered 500. -/
def searchHandlerStatus (storeOutcome : Except String Int) : Nat :=
  match repoSearchErrResult storeOutcome with
  | .error _ => 500
  | .ok _ => 200

/-! ## Condition shapes: the template emitted for a filter depends only
on which filter it is, never on the filter's value -/

inductive CondKind
  | textSearch
  | eqSourceType
  | eqSourceId
  | eqFieldId
  | eqFieldType
  | eqUserIdentifier
  | geCollectedAt
  | leCollectedAt
deriving Repr, DecidableEq

def condKind : SqlCond → CondKind
  | .textSearch _ => .textSearch
  | .eqSourceType _ => .eqSourceType
  | .eqSourceId _ => .eqSourceId
  | .eqFieldId _ => .eqFieldId
  | .eqFieldType _ => .eqFieldType
  | .eqUserIdentifier _ => .eqUserIdentifier
  | .geCollectedAt _ => .geCollectedAt
  | .leCollectedAt _ => .leCollectedAt

/-! ## Concrete fixtures used to instantiate the theorems -/

def recW : ExperienceData where
  id := "r1"
  collectedAt := 5
  createdAt := 1
  updatedAt := 2
  sourceType := "formbricks"
  sourceId := none
  sourceName := some "Onboarding Survey"
  fieldId := "nps_score"
  fieldLabel := some "NPS"
  fieldType := "text"
  valueText := some "amazing product"
  valueNumber := none
  valueBoolean := none
  valueDate := none
  valueJson := none
  metadata := none
  language := some "en"
  userIdentifier := some "u1"

def dbW : List ExperienceData := [recW]

def searchReqA : SearchExperiencesRequest where
  query := some "abc"
  sourceType := some "formbricks"
  sourceId := none
  fieldId := none
  fieldType := none
  userIdentifier := none
  startDate := none
  endDate := none
  pageSize := 0
  page := 0

def searchReqB : SearchExperiencesRequest where
  query := some "XY; DROP TABLE experience_data"
  sourceType := some "typeform"
  sourceId := none
  fieldId := none
  fieldType := none
  userIdentifier := none
  startDate := none
  endDate := none
  pageSize := 7
  page := 3

def searchReqNoMatch : SearchExperiencesRequest where
  query := some "nonexistent123xyz"
  sourceType := none
  sourceId := none
  fieldId := none
  fieldType := none
  userIdentifier := none
  startDate := none
  endDate := none
  pageSize := 0
  page := 0

def listFA : ListExperiencesFilters where
  sourceType := some "formbricks"
  sourceId := none
  fieldId := none
  userIdentifier := none
  limit := 10
  offset := 0

def listFB : ListExperiencesFilters where
  sourceType := some "typeform"
  sourceId := none
  fieldId := none
  userIdentifier := none
  limit := 25
  offset := 0

def apiKeyActiveW : APIKey where
  id := "k1"
  keyHash := HashAPIKey "secret-key-1"
  name := some "Test Key"
  isActive := true
  createdAt := 0
  updatedAt := 0
  lastUsedAt := none

def apiKeyInactiveW : APIKey where
  id := "k2"
  keyHash := HashAPIKey "secret-key-1"
  name := none
  isActive := false
  createdAt := 0
  updatedAt := 0
  lastUsedAt := none

def updReqEmpty : UpdateExperienceRequest where
  sourceType := none
  sourceId := none
  sourceName := none
  fieldId := none
  fieldLabel := none
  fieldType := none
  valueText := none
  valueNumber := none
  valueBoolean := none
  valueDate := none
  valueJson := none
  metadata := none
  language := none
  userIdentifier := none

def updReqX : UpdateExperienceRequest :=
  { updReqEmpty with sourceType := some "typeform" }

def createReqGood : CreateExperienceRequest where
  collectedAt := none
  sourceType := "formbricks"
  sourceId := none
  sourceName := none
  fieldId := "nps_score"
  fieldLabel := none
  fieldType := "number"
  valueText := none
  valueNumber := some 9
  valueBoolean := none
  valueDate := none
  valueJson := none
  metadata := none
  language := none
  userIdentifier := none

def createReqBad : CreateExperienceRequest :=
  { createReqGood with sourceType := "" }

def searchReqMatch : SearchExperiencesRequest where
  query := some "Amazing"
  sourceType := some "formbricks"
  sourceId := none
  fieldId := none
  fieldType := none
  userIdentifier := none
  startDate := none
  endDate := none
  pageSize := 20
  page := 0

def searchReqClamp : SearchExperiencesRequest :=
  { searchReqMatch with pageSize := 100, page := -5 }

/-! # Helper lemmas -/

theorem condText_eq_of_kind (c c' : SqlCond) (h : condKind c = condKind c') (n : Nat) :
    condText c n = condText c' n := by
  cases c <;> cases c' <;> simp_all [condKind, condText]

theorem renderConds_eq_of_kinds :
    ∀ (cs1 cs2 : List SqlCond), cs1.map condKind = cs2.map condKind →
      ∀ n, renderConds cs1 n = renderConds cs2 n := by
  intro cs1
  induction cs1 with
  | nil =>
      intro cs2 h n
      cases cs2 with
      | nil => rfl
      | cons c cs => simp at h
  | cons c cs ih =>
      intro cs2 h n
      cases cs2 with
      | nil => simp at h
      | cons c' cs' =>
          simp only [List.map_cons, List.cons.injEq] at h
          simp [renderConds, condText_eq_of_kind c c' h.1, ih cs' h.2]

theorem length_eq_of_kinds {cs1 cs2 : List SqlCond}
    (h : cs1.map condKind = cs2.map condKind) : cs1.length = cs2.length := by
  have h2 := congrArg List.length h
  simpa using h2

theorem whereClause_eq_of_kinds {cs1 cs2 : List SqlCond}
    (h : cs1.map condKind = cs2.map condKind) : whereClause cs1 = whereClause cs2 := by
  have hlen := length_eq_of_kinds h
  unfold whereClause
  cases cs1 with
  | nil =>
      cases cs2 with
      | nil => rfl
      | cons c cs => simp at hlen
  | cons c cs =>
      cases cs2 with
      | nil => simp at hlen
      | cons c' cs' => simp [renderConds_eq_of_kinds _ _ h 1]

theorem map_kind_optCond {o1 o2 : Option String} (f : String → SqlCond) (k : CondKind)
    (hf : ∀ v, condKind (f v) = k) (h : o1.isSome = o2.isSome) :
    (optCond o1 f).map condKind = (optCond o2 f).map condKind := by
  cases o1 <;> cases o2 <;> simp_all [optCond]

theorem map_kind_optCondTime {o1 o2 : Option Int} (f : Int → SqlCond) (k : CondKind)
    (hf : ∀ v, condKind (f v) = k) (h : o1.isSome = o2.isSome) :
    (optCondTime o1 f).map condKind = (optCondTime o2 f).map condKind := by
  cases o1 <;> cases o2 <;> simp_all [optCondTime]

theorem map_kind_queryCond {o1 o2 : Option String}
    (h : o1.elim false (fun q => q != "") = o2.elim false (fun q => q != "")) :
    (queryCond o1).map condKind = (queryCond o2).map condKind := by
  cases o1 with
  | none =>
      cases o2 with
      | none => rfl
      | some q =>
          by_cases hq : q = "" <;> simp_all [queryCond]
  | some q =>
      cases o2 with
      | none => by_cases hq : q = "" <;> simp_all [queryCond]
      | some q' =>
          by_cases hq : q = "" <;> by_cases hq' : q' = "" <;> simp_all [queryCond, condKind]

theorem searchConds_kinds {r1 r2 : SearchExperiencesRequest}
    (h : searchProfile r1 = searchProfile r2) :
    (searchConds r1).map condKind = (searchConds r2).map condKind := by
  have hq := congrArg SearchProfile.hasQuery h
  have h1 := congrArg SearchProfile.hasSourceType h
  have h2 := congrArg SearchProfile.hasSourceId h
  have h3 := congrArg SearchProfile.hasFieldId h
  have h4 := congrArg SearchProfile.hasFieldType h
  have h5 := congrArg SearchProfile.hasUserIdentifier h
  have h6 := congrArg SearchProfile.hasStartDate h
  have h7 := congrArg SearchProfile.hasEndDate h
  simp only [searchProfile] at hq h1 h2 h3 h4 h5 h6 h7
  simp only [searchConds, List.map_append]
  rw [map_kind_queryCond hq,
      map_kind_optCond SqlCond.eqSourceType CondKind.eqSourceType (fun v => rfl) h1,
      map_kind_optCond SqlCond.eqSourceId CondKind.eqSourceId (fun v => rfl) h2,
      map_kind_optCond SqlCond.eqFieldId CondKind.eqFieldId (fun v => rfl) h3,
      map_kind_optCond SqlCond.eqFieldType CondKind.eqFieldType (fun v => rfl) h4,
      map_kind_optCond SqlCond.eqUserIdentifier CondKind.eqUserIdentifier (fun v => rfl) h5,
      map_kind_optCondTime SqlCond.geCollectedAt CondKind.geCollectedAt (fun v => rfl) h6,
      map_kind_optCondTime SqlCond.leCollectedAt CondKind.leCollectedAt (fun v => rfl) h7]

theorem listConds_kinds {f1 f2 : ListExperiencesFilters}
    (h : listProfile f1 = listProfile f2) :
    (listConds f1).map condKind = (listConds f2).map condKind := by
  have h1 := congrArg ListProfile.hasSourceType h
  have h2 := congrArg ListProfile.hasSourceId h
  have h3 := congrArg ListProfile.hasFieldId h
  have h4 := congrArg ListProfile.hasUserIdentifier h
  simp only [listProfile] at h1 h2 h3 h4
  simp only [listConds, List.map_append]
  rw [map_kind_optCond SqlCond.eqSourceType CondKind.eqSourceType (fun v => rfl) h1,
      map_kind_optCond SqlCond.eqSourceId CondKind.eqSourceId (fun v => rfl) h2,
      map_kind_optCond SqlCond.eqFieldId CondKind.eqFieldId (fun v => rfl) h3,
      map_kind_optCond SqlCond.eqUserIdentifier CondKind.eqUserIdentifier (fun v => rfl) h4]

/-! # Claim theorems -/

/-- C1: For every pair of list or search filter inputs in which the same
subset of optional filters is present, the constructed SQL query text
(count and data text for Search, the single text for List) is identical
— the text depends only on which filters are present, never on their
values — and every present filter's value is passed in the
bound-parameter list, never interpolated into the query text. -/
theorem query_text_presence_only :
    (∀ r1 r2 : SearchExperiencesRequest, searchProfile r1 = searchProfile r2 →
       searchCountQueryText r1 = searchCountQueryText r2 ∧
       searchDataQueryText r1 = searchDataQueryText r2) ∧
    (∀ f1 f2 : ListExperiencesFilters, listProfile f1 = listProfile f2 →
       listQueryText f1 = listQueryText f2) ∧
    (∀ (r : SearchExperiencesRequest) (q : String), r.query = some q → q ≠ "" →
       SqlVal.str ("%" ++ q ++ "%") ∈ searchFilterArgs r) ∧
    (∀ (r : SearchExperiencesRequest) (v : String), r.sourceType = some v →
       SqlVal.str v ∈ searchFilterArgs r) ∧
    (∀ (r : SearchExperiencesRequest) (v : String), r.sourceId = some v →
       SqlVal.str v ∈ searchFilterArgs r) ∧
    (∀ (r : SearchExperiencesRequest) (v : String), r.fieldId = some v →
       SqlVal.str v ∈ searchFilterArgs r) ∧
    (∀ (r : SearchExperiencesRequest) (v : String), r.fieldType = some v →
       SqlVal.str v ∈ searchFilterArgs r) ∧
    (∀ (r : SearchExperiencesRequest) (v : String), r.userIdentifier = some v →
       SqlVal.str v ∈ searchFilterArgs r) ∧
    (∀ (r : SearchExperiencesRequest) (t : Int), r.startDate = some t →
       SqlVal.time t ∈ searchFilterArgs r) ∧
    (∀ (r : SearchExperiencesRequest) (t : Int), r.endDate = some t →
       SqlVal.time t ∈ searchFilterArgs r) ∧
    (∀ (f : ListExperiencesFilters) (v : String), f.sourceType = some v →
       SqlVal.str v ∈ listArgs f) ∧
    (∀ (f : ListExperiencesFilters) (v : String), f.sourceId = some v →
       SqlVal.str v ∈ listArgs f) ∧
    (∀ (f : ListExperiencesFilters) (v : String), f.fieldId = some v →
       SqlVal.str v ∈ listArgs f) ∧
    (∀ (f : ListExperiencesFilters) (v : String), f.userIdentifier = some v →
       SqlVal.str v ∈ listArgs f) := by
  refine ⟨?_, ?_, ?_, ?_, ?_, ?_, ?_, ?_, ?_, ?_, ?_, ?_, ?_, ?_⟩
  · intro r1 r2 h
    have hk := searchConds_kinds h
    have hlen := length_eq_of_kinds hk
    have hwc := whereClause_eq_of_kinds hk
    constructor
    · unfold searchCountQueryText
      rw [hwc]
    · unfold searchDataQueryText searchPaginationClause
      rw [hwc, hlen]
  · intro f1 f2 h
    have hk := listConds_kinds h
    have hlen := length_eq_of_kinds hk
    have hwc := whereClause_eq_of_kinds hk
    have hl := congrArg ListProfile.hasLimit h
    have ho := congrArg ListProfile.hasOffset h
    simp only [listProfile, decide_eq_decide] at hl ho
    simp only [listQueryText]
    rw [hwc, hlen]
    by_cases hL : f1.limit > 0
    · have hL2 : f2.limit > 0 := hl.mp hL
      by_cases hO : f1.offset > 0
      · have hO2 : f2.offset > 0 := ho.mp hO
        simp [hL, hL2, hO, hO2]
      · have hO2 : ¬f2.offset > 0 := fun hc => hO (ho.mpr hc)
        simp [hL, hL2, hO, hO2]
    · have hL2 : ¬f2.limit > 0 := fun hc => hL (hl.mpr hc)
      by_cases hO : f1.offset > 0
      · have hO2 : f2.offset > 0 := ho.mp hO
        simp [hL, hL2, hO, hO2]
      · have hO2 : ¬f2.offset > 0 := fun hc => hO (ho.mpr hc)
        simp [hL, hL2, hO, hO2]
  · intro r q hq hne
    simp [searchFilterArgs, searchConds, queryCond, hq, hne, optCond, optCondTime, condArg]
  · intro r v hv
    simp [searchFilterArgs, searchConds, queryCond, hv, optCond, optCondTime, condArg]
  · intro r v hv
    simp [searchFilterArgs, searchConds, queryCond, hv, optCond, optCondTime, condArg]
  · intro r v hv
    simp [searchFilterArgs, searchConds, queryCond, hv, optCond, optCondTime, condArg]
  · intro r v hv
    simp [searchFilterArgs, searchConds, queryCond, hv, optCond, optCondTime, condArg]
  · intro r v hv
    simp [searchFilterArgs, searchConds, queryCond, hv, optCond, optCondTime, condArg]
  · intro r t ht
    simp [searchFilterArgs, searchConds, queryCond, ht, optCond, optCondTime, condArg]
  · intro r t ht
    simp [searchFilterArgs, searchConds, queryCond, ht, optCond, optCondTime, condArg]
  · intro f v hv
    simp [listArgs, listConds, hv, optCond, condArg]
  · intro f v hv
    simp [listArgs, listConds, hv, optCond, condArg]
  · intro f v hv
    simp [listArgs, listConds, hv, optCond, condArg]
  · intro f v hv
    simp [listArgs, listConds, hv, optCond, condArg]

/-- Witness for C1: two search requests (and two list filters) with the
same filters present but different filter values — one of them an
injection attempt — produce the identical query text, and the query
value lands in the bound-parameter list. -/
theorem query_text_presence_only_witness :
    searchProfile searchReqA = searchProfile searchReqB ∧
    searchCountQueryText searchReqA = searchCountQueryText searchReqB ∧
    searchDataQueryText searchReqA = searchDataQueryText searchReqB ∧
    listProfile listFA = listProfile listFB ∧
    listQueryText listFA = listQueryText listFB ∧
    searchReqA.query = some "abc" ∧ "abc" ≠ "" ∧
    SqlVal.str "%abc%" ∈ searchFilterArgs searchReqA :=
  have hp : searchProfile searchReqA = searchProfile searchReqB := by decide
  have hl : listProfile listFA = listProfile listFB := by decide
  ⟨hp, (query_text_presence_only.1 searchReqA searchReqB hp).1,
   (query_text_presence_only.1 searchReqA searchReqB hp).2,
   hl, query_text_presence_only.2.1 listFA listFB hl,
   rfl, by decide,
   query_text_presence_only.2.2.1 searchReqA "abc" rfl (by decide)⟩

theorem mem_insertDesc {x y : ExperienceData} :
    ∀ {l : List ExperienceData}, y ∈ insertDesc x l → y = x ∨ y ∈ l := by
  intro l
  induction l with
  | nil =>
      intro h
      simp [insertDesc] at h
      exact Or.inl h
  | cons z zs ih =>
      intro h
      simp only [insertDesc] at h
      by_cases hc : z.collectedAt ≤ x.collectedAt
      · rw [if_pos hc] at h
        rcases List.mem_cons.mp h with h1 | h2
        · exact Or.inl h1
        · exact Or.inr h2
      · rw [if_neg hc] at h
        rcases List.mem_cons.mp h with h1 | h2
        · exact Or.inr (List.mem_cons.mpr (Or.inl h1))
        · rcases ih h2 with h3 | h4
          · exact Or.inl h3
          · exact Or.inr (List.mem_cons.mpr (Or.inr h4))

theorem mem_sortByCollectedDesc {y : ExperienceData} :
    ∀ {l : List ExperienceData}, y ∈ sortByCollectedDesc l → y ∈ l := by
  intro l
  induction l with
  | nil => intro h; simp [sortByCollectedDesc] at h
  | cons z zs ih =>
      intro h
      have h2 : y ∈ insertDesc z (sortByCollectedDesc zs) := h
      rcases mem_insertDesc h2 with h3 | h4
      · exact List.mem_cons.mpr (Or.inl h3)
      · exact List.mem_cons.mpr (Or.inr (ih h4))

/-- C3: the count query and the data query are built from the identical
ordered condition list with the same bound filter values; the data query
differs only by the ORDER BY, LIMIT and OFFSET clauses appended after
the shared WHERE clause, and its extra bound arguments are exactly the
limit and offset; hence both queries evaluate the same filter predicate:
the reported count is the number of records satisfying `searchPred`, and
every returned data row satisfies `searchPred`. -/
theorem search_count_data_same_predicate (req : SearchExperiencesRequest)
    (db : List ExperienceData) :
    searchCountQueryText req = countBase ++ whereClause (searchConds req) ∧
    searchDataQueryText req =
      selectBase ++ whereClause (searchConds req) ++ orderByClause ++ searchPaginationClause req ∧
    searchFilterArgs req = (searchConds req).map condArg ∧
    searchDataArgs req = searchFilterArgs req ++
      [SqlVal.int (repoLimitOffset req).1, SqlVal.int (repoLimitOffset req).2] ∧
    repoSearchCount db req = ((db.filter (searchPred req)).length : Int) ∧
    ∀ r ∈ repoSearchRows db req, searchPred req r = true := by
  refine ⟨rfl, rfl, rfl, rfl, rfl, ?_⟩
  intro r hr
  have h1 : r ∈ (sortByCollectedDesc (db.filter (searchPred req))).drop
      (repoLimitOffset req).2.toNat := List.take_subset _ _ hr
  have h2 : r ∈ sortByCollectedDesc (db.filter (searchPred req)) :=
    List.drop_subset _ _ h1
  have h3 : r ∈ db.filter (searchPred req) := mem_sortByCollectedDesc h2
  exact (List.mem_filter.mp h3).2

/-- Witness for C3: on a concrete store and matching request, a concrete
returned row indeed satisfies the search predicate. -/
theorem search_count_data_same_predicate_witness :
    recW ∈ repoSearchRows dbW searchReqMatch ∧ searchPred searchReqMatch recW = true :=
  ⟨by decide, (search_count_data_same_predicate searchReqMatch dbW).2.2.2.2.2 recW (by decide)⟩

theorem normalize_bounds (req : SearchExperiencesRequest) :
    1 ≤ (normalizeSearchReq req).pageSize ∧ (normalizeSearchReq req).pageSize ≤ 40 ∧
    0 ≤ (normalizeSearchReq req).page := by
  simp only [normalizeSearchReq]
  split_ifs <;> constructor <;> try constructor
  all_goals omega

theorem totalPagesCalc_ceil {T P : Int} (_hT : 0 ≤ T) (hP : 1 ≤ P) :
    T ≤ totalPagesCalc T P * P ∧ ∀ n : Int, T ≤ n * P → totalPagesCalc T P ≤ n := by
  have hP0 : 0 < P := hP
  have hdm : P * (T / P) + T % P = T := Int.ediv_add_emod T P
  have hr0 : 0 ≤ T % P := Int.emod_nonneg T (by omega)
  have hrP : T % P < P := Int.emod_lt_of_pos T hP0
  constructor
  · by_cases hr : T % P > 0
    · simp only [totalPagesCalc, if_pos hr]
      have hx : (T / P + 1) * P = P * (T / P) + P := by ring
      rw [hx]
      linarith
    · simp only [totalPagesCalc, if_neg hr]
      have hz : T % P = 0 := by omega
      have hx : (T / P + 0) * P = P * (T / P) := by ring
      rw [hx]
      linarith
  · intro n hn
    have hq : T / P ≤ n := by
      have h1 : T / P ≤ n * P / P := Int.ediv_le_ediv hP0 hn
      rwa [Int.mul_ediv_cancel n (by omega)] at h1
    by_cases hr : T % P > 0
    · simp only [totalPagesCalc, if_pos hr]
      rcases eq_or_lt_of_le hq with heq | hlt
      · exfalso
        rw [← heq] at hn
        have hx : T / P * P = P * (T / P) := by ring
        rw [hx] at hn
        linarith
      · omega
    · simp only [totalPagesCalc, if_neg hr]
      omega

/-- C2: for every search request, the response's totalPages is computed
as integer division of totalCount by the effective pageSize plus one
exactly when a nonzero remainder exists, and this value is the ceiling
of totalCount / pageSize (the least n with totalCount ≤ n * pageSize);
the data query's offset is page * pageSize. -/
theorem search_pagination_arithmetic (db : List ExperienceData)
    (req : SearchExperiencesRequest) :
    ((SearchExperiences db req).totalPages =
       (SearchExperiences db req).totalCount / (SearchExperiences db req).pageSize +
       (if (SearchExperiences db req).totalCount % (SearchExperiences db req).pageSize > 0
        then 1 else 0)) ∧
    (SearchExperiences db req).totalCount ≤
      (SearchExperiences db req).totalPages * (SearchExperiences db req).pageSize ∧
    (∀ n : Int, (SearchExperiences db req).totalCount ≤ n * (SearchExperiences db req).pageSize →
       (SearchExperiences db req).totalPages ≤ n) ∧
    (repoLimitOffset (normalizeSearchReq req)).2 =
      (normalizeSearchReq req).page * (normalizeSearchReq req).pageSize := by
  have hb := normalize_bounds req
  have hTC : (SearchExperiences db req).totalCount =
      repoSearchCount db (normalizeSearchReq req) := by
    simp [SearchExperiences]
  have hPS : (SearchExperiences db req).pageSize = (normalizeSearchReq req).pageSize := by
    simp [SearchExperiences]
  have hTP : (SearchExperiences db req).totalPages =
      totalPagesCalc (repoSearchCount db (normalizeSearchReq req))
        (normalizeSearchReq req).pageSize := by
    simp [SearchExperiences]
  have hT0 : 0 ≤ repoSearchCount db (normalizeSearchReq req) := by
    simp [repoSearchCount]
  have hceil := totalPagesCalc_ceil hT0 hb.1
  refine ⟨?_, ?_, ?_, rfl⟩
  · rw [hTP, hTC, hPS]
    rfl
  · rw [hTP, hTC, hPS]
    exact hceil.1
  · intro n hn
    rw [hTP]
    exact hceil.2 n (by rw [hTC, hPS] at hn; exact hn)

/-- Witness for C2 on a concrete store and request: one matching record
with pageSize 20 yields one page, and its offset is page * pageSize. -/
theorem search_pagination_arithmetic_witness :
    ((SearchExperiences dbW searchReqMatch).totalCount ≤
       1 * (SearchExperiences dbW searchReqMatch).pageSize) ∧
    (SearchExperiences dbW searchReqMatch).totalPages ≤ 1 :=
  ⟨by decide, (search_pagination_arithmetic dbW searchReqMatch).2.2.1 1 (by decide)⟩

theorem searchConds_normalize (req : SearchExperiencesRequest) :
    searchConds (normalizeSearchReq req) = searchConds req := rfl

/-- C4: when the free-text query filter is present and non-empty, the
search predicate accepts a record iff the query occurs case-insensitively
as a substring of at least one of value_text, field_label, source_name,
field_id, ANDed with all other present filters; and a query matching no
record yields totalCount = 0 and an empty, non-null data array rather
than an error. -/
theorem search_free_text_semantics (req : SearchExperiencesRequest) (q : String)
    (hq : req.query = some q) (hne : q ≠ "") :
    (∀ r : ExperienceData,
       searchPred req r =
         ((optContainsCI r.valueText q || optContainsCI r.fieldLabel q ||
           optContainsCI r.sourceName q || containsCI r.fieldId q) &&
          searchPred { req with query := none } r)) ∧
    (∀ db : List ExperienceData,
       (∀ r ∈ db, (optContainsCI r.valueText q || optContainsCI r.fieldLabel q ||
           optContainsCI r.sourceName q || containsCI r.fieldId q) = false) →
       (SearchExperiences db req).totalCount = 0 ∧
       (SearchExperiences db req).data = some []) := by
  have hconds : searchConds req =
      SqlCond.textSearch q :: searchConds { req with query := none } := by
    simp [searchConds, queryCond, hq, hne]
  constructor
  · intro r
    rw [searchPred, hconds]
    simp [condSem, searchPred]
  · intro db hnomatch
    have hpred : ∀ r ∈ db, searchPred (normalizeSearchReq req) r = false := by
      intro r hr
      rw [searchPred, searchConds_normalize, hconds]
      simp [condSem, hnomatch r hr]
    have hfilter : db.filter (searchPred (normalizeSearchReq req)) = [] := by
      rw [List.filter_eq_nil_iff]
      intro a ha
      simp [hpred a ha]
    constructor
    · simp [SearchExperiences, repoSearchCount, hfilter]
    · simp [SearchExperiences, repoSearchRows, repoSearchCount, hfilter,
            sortByCollectedDesc, goSliceOf]

/-- Witness for C4: the non-matching query from the spec scenario on a
concrete store returns zero count and an empty, non-null array. -/
theorem search_free_text_semantics_witness :
    (SearchExperiences dbW searchReqNoMatch).totalCount = 0 ∧
    (SearchExperiences dbW searchReqNoMatch).data = some [] :=
  (search_free_text_semantics searchReqNoMatch "nonexistent123xyz" rfl
    (by decide)).2 dbW (by decide)

/-- C5: at the service layer a pageSize ≤ 0 becomes the default 20, a
pageSize > 40 is clamped to 40, and a negative page is clamped to 0; at
the HTTP boundary a supplied page or pageSize parameter that fails to
parse or is negative is answered with the 400 response before the
service is called (the service call occurs only in the Except.ok
branch of `searchHandlerRun`). -/
theorem pagination_clamping_and_rejection (req : SearchExperiencesRequest)
    (db : List ExperienceData) (reqBase : SearchExperiencesRequest)
    (pageSizeStr pageStr : String) :
    ((req.pageSize ≤ 0 → (normalizeSearchReq req).pageSize = 20) ∧
     (req.pageSize > 40 → (normalizeSearchReq req).pageSize = 40) ∧
     (req.page < 0 → (normalizeSearchReq req).page = 0)) ∧
    ((pageSizeStr ≠ "" ∧ (atoi pageSizeStr = none ∨ ∃ n, atoi pageSizeStr = some n ∧ n < 0)) ∨
     (pageStr ≠ "" ∧ (atoi pageStr = none ∨ ∃ n, atoi pageStr = some n ∧ n < 0)) →
     ∃ e, searchHandlerRun db reqBase pageSizeStr pageStr = Except.error e) := by
  constructor
  · refine ⟨?_, ?_, ?_⟩
    · intro h
      simp only [normalizeSearchReq]
      split_ifs <;> omega
    · intro h
      simp only [normalizeSearchReq]
      split_ifs <;> omega
    · intro h
      simp only [normalizeSearchReq]
      split_ifs
      omega
  · intro hbad
    rcases hbad with ⟨hne, hcase⟩ | ⟨hne, hcase⟩
    · rcases hcase with ha | ⟨n, ha, hlt⟩
      · exact ⟨"Invalid pageSize parameter",
          by simp [searchHandlerRun, parseSearchPagination, hne, ha]⟩
      · exact ⟨"Invalid pageSize parameter",
          by simp [searchHandlerRun, parseSearchPagination, hne, ha, hlt]⟩
    · by_cases hps : pageSizeStr = ""
      · rcases hcase with ha | ⟨n, ha, hlt⟩
        · exact ⟨"Invalid page parameter",
            by simp [searchHandlerRun, parseSearchPagination, hps, hne, ha]⟩
        · exact ⟨"Invalid page parameter",
            by simp [searchHandlerRun, parseSearchPagination, hps, hne, ha, hlt]⟩
      · cases hpa : atoi pageSizeStr with
        | none =>
            exact ⟨"Invalid pageSize parameter",
              by simp [searchHandlerRun, parseSearchPagination, hps, hpa]⟩
        | some m =>
            by_cases hm : m < 0
            · exact ⟨"Invalid pageSize parameter",
                by simp [searchHandlerRun, parseSearchPagination, hps, hpa, hm]⟩
            · rcases hcase with ha | ⟨n, ha, hlt⟩
              · exact ⟨"Invalid page parameter",
                  by simp [searchHandlerRun, parseSearchPagination, hps, hpa, hm, hne, ha]⟩
              · exact ⟨"Invalid page parameter",
                  by simp [searchHandlerRun, parseSearchPagination, hps, hpa, hm, hne, ha, hlt]⟩

/-- Witness for C5: pageSize 100 is served as 40, page -5 is clamped to
0 at the service layer, and the boundary rejects page=-1 with the 400
response. -/
theorem pagination_clamping_and_rejection_witness :
    (normalizeSearchReq searchReqClamp).pageSize = 40 ∧
    (normalizeSearchReq searchReqClamp).page = 0 ∧
    ∃ e, searchHandlerRun dbW searchReqA "20" "-1" = Except.error e :=
  ⟨(pagination_clamping_and_rejection searchReqClamp dbW searchReqA "20" "-1").1.2.1
     (by decide),
   (pagination_clamping_and_rejection searchReqClamp dbW searchReqA "20" "-1").1.2.2
     (by decide),
   (pagination_clamping_and_rejection searchReqClamp dbW searchReqA "20" "-1").2
     (Or.inr ⟨by decide, Or.inr ⟨-1, by decide, by decide⟩⟩)⟩

theorem splitN2Space_bearer (raw : String) :
    splitN2Space ("Bearer " ++ raw) = ["Bearer", raw] := by
  obtain ⟨rdata⟩ := raw
  rfl

theorem bearer_header_ne_empty (raw : String) : ("Bearer " ++ raw) ≠ "" := by
  intro hc
  have hlen := congrArg String.length hc
  simp [String.length_append] at hlen
  exact absurd hlen.1 (by decide)

/-- C6: validation succeeds and returns the credential record iff the
key store contains a record whose key_hash equals the SHA-256 hex digest
of the raw key and whose is_active flag is true; for every raw key with
no such record — unknown digest or inactive key alike — it fails with
the one constant unauthorized error, and the middleware answers 401 with
the one constant message, leaking nothing about which condition failed. -/
theorem validate_api_key_iff (store : List APIKey) (raw : String) :
    ((∃ k ∈ store, k.keyHash = HashAPIKey raw ∧ k.isActive = true) ↔
       ∃ k, ValidateAPIKey store raw = Except.ok k) ∧
    (∀ k, ValidateAPIKey store raw = Except.ok k →
       k ∈ store ∧ k.keyHash = HashAPIKey raw ∧ k.isActive = true) ∧
    ((∀ k ∈ store, ¬(k.keyHash = HashAPIKey raw ∧ k.isActive = true)) →
       ValidateAPIKey store raw = Except.error "invalid or inactive API key" ∧
       (raw ≠ "" →
         Auth store ("Bearer " ++ raw) =
           AuthOutcome.reject 401 "Invalid or inactive API key")) := by
  have hok : ∀ k, ValidateAPIKey store raw = Except.ok k →
      k ∈ store ∧ k.keyHash = HashAPIKey raw ∧ k.isActive = true := by
    intro k hk
    unfold ValidateAPIKey at hk
    cases hfind : store.find? (fun k => k.keyHash == HashAPIKey raw && k.isActive) with
    | none => rw [hfind] at hk; cases hk
    | some k0 =>
        rw [hfind] at hk
        injection hk with h
        subst h
        have hmem := List.mem_of_find?_eq_some hfind
        have hp := List.find?_some hfind
        simp only [Bool.and_eq_true, beq_iff_eq] at hp
        exact ⟨hmem, hp.1, hp.2⟩
  refine ⟨⟨?_, ?_⟩, hok, ?_⟩
  · rintro ⟨k, hk, hh, ha⟩
    have hsome : (store.find? (fun k => k.keyHash == HashAPIKey raw && k.isActive)).isSome :=
      List.find?_isSome.mpr ⟨k, hk, by simp [hh, ha]⟩
    rcases Option.isSome_iff_exists.mp hsome with ⟨k0, hk0⟩
    exact ⟨k0, by simp [ValidateAPIKey, hk0]⟩
  · rintro ⟨k, hk⟩
    rcases hok k hk with ⟨hmem, hh, ha⟩
    exact ⟨k, hmem, hh, ha⟩
  · intro hnone
    have hfind : store.find? (fun k => k.keyHash == HashAPIKey raw && k.isActive) = none := by
      rw [List.find?_eq_none]
      intro k hk
      simp only [Bool.and_eq_true, beq_iff_eq, not_and]
      intro hh ha
      exact hnone k hk ⟨hh, ha⟩
    have hval : ValidateAPIKey store raw = Except.error "invalid or inactive API key" := by
      simp [ValidateAPIKey, hfind]
    refine ⟨hval, ?_⟩
    intro hraw
    unfold Auth
    rw [if_neg (bearer_header_ne_empty raw), splitN2Space_bearer raw]
    have hlower : (String.mk (lowerStr "Bearer") != "bearer") = false := by decide
    simp only [hlower, Bool.false_eq_true, if_false]
    rw [if_neg hraw, hval]

/-- Witness for C6: a store holding only an inactive record for the key
fails validation with the constant message and gets 401 from the
middleware; the active record validates successfully. -/
theorem validate_api_key_iff_witness :
    ValidateAPIKey [apiKeyInactiveW] "secret-key-1" =
      Except.error "invalid or inactive API key" ∧
    Auth [apiKeyInactiveW] ("Bearer " ++ "secret-key-1") =
      AuthOutcome.reject 401 "Invalid or inactive API key" ∧
    (∃ k, ValidateAPIKey [apiKeyActiveW] "secret-key-1" = Except.ok k) :=
  have h3 := (validate_api_key_iff [apiKeyInactiveW] "secret-key-1").2.2 (by decide)
  ⟨h3.1, h3.2 (by decide),
   (validate_api_key_iff [apiKeyActiveW] "secret-key-1").1.mp
     ⟨apiKeyActiveW, by decide, rfl, rfl⟩⟩

/-- C7: an update request with no present field executes no UPDATE — the
store is returned unchanged and the result is the plain GetByID lookup,
so the current record, updated_at included, comes back unchanged and a
present record is not an error; updated_at is set to the statement
timestamp only when at least one field is present. -/
theorem update_noop_frame (db : List ExperienceData) (id : String)
    (req : UpdateExperienceRequest) (now : Int) :
    (hasUpdates req = false →
       repoUpdate db id req now = (db, getById db id) ∧
       ∀ r, getById db id = Except.ok r → (repoUpdate db id req now).2 = Except.ok r) ∧
    (hasUpdates req = true →
       ∀ r, (repoUpdate db id req now).2 = Except.ok r → r.updatedAt = now) := by
  constructor
  · intro h
    constructor
    · simp [repoUpdate, h]
    · intro r hr
      simp [repoUpdate, h, hr]
  · intro h
    intro r hr
    unfold repoUpdate at hr
    simp only [h, if_true] at hr
    cases hfind : db.find? (fun x => x.id == id) with
    | none => rw [hfind] at hr; cases hr
    | some r0 =>
        rw [hfind] at hr
        simp only [Except.ok.injEq] at hr
        rw [← hr]
        simp [applyUpdate]

/-- Witness for C7: the all-absent update request leaves a concrete
store untouched and returns the stored record; a one-field update stamps
updated_at with the statement timestamp. -/
theorem update_noop_frame_witness :
    repoUpdate dbW "r1" updReqEmpty 99 = (dbW, getById dbW "r1") ∧
    (repoUpdate dbW "r1" updReqEmpty 99).2 = Except.ok recW ∧
    (applyUpdate updReqX 99 recW).updatedAt = 99 :=
  ⟨((update_noop_frame dbW "r1" updReqEmpty 99).1 (by decide)).1,
   ((update_noop_frame dbW "r1" updReqEmpty 99).1 (by decide)).2 recW rfl,
   (update_noop_frame dbW "r1" updReqX 99).2 (by decide) (applyUpdate updReqX 99 recW)
     rfl⟩

/-- C8: CreateExperience fails with the validation error and issues no
store call whenever sourceType, fieldId or fieldType is empty; when all
three are non-empty, validation passes and exactly the insert call is
attempted. -/
theorem create_validation_gate (req : CreateExperienceRequest) :
    ((req.sourceType = "" ∨ req.fieldId = "" ∨ req.fieldType = "") →
       (∃ e, (CreateExperience req).1 = Except.error e) ∧ (CreateExperience req).2 = []) ∧
    (req.sourceType ≠ "" → req.fieldId ≠ "" → req.fieldType ≠ "" →
       (CreateExperience req).1 = Except.ok () ∧
       (CreateExperience req).2 = [StoreOp.insert req]) := by
  constructor
  · intro h
    rcases h with h | h | h
    · simp [CreateExperience, validateCreateRequest, h]
    · by_cases hs : req.sourceType = "" <;>
        simp [CreateExperience, validateCreateRequest, hs, h]
    · by_cases hs : req.sourceType = "" <;> by_cases hf : req.fieldId = "" <;>
        simp [CreateExperience, validateCreateRequest, hs, hf, h]
  · intro h1 h2 h3
    simp [CreateExperience, validateCreateRequest, h1, h2, h3]

/-- Witness for C8: the empty-sourceType request errors with no store
call; the fully populated request reaches exactly the insert. -/
theorem create_validation_gate_witness :
    (∃ e, (CreateExperience createReqBad).1 = Except.error e) ∧
    (CreateExperience createReqBad).2 = [] ∧
    (CreateExperience createReqGood).1 = Except.ok () ∧
    (CreateExperience createReqGood).2 = [StoreOp.insert createReqGood] :=
  have hbad := (create_validation_gate createReqBad).1 (Or.inl (by decide))
  have hgood := (create_validation_gate createReqGood).2 (by decide) (by decide) (by decide)
  ⟨hbad.1, hbad.2, hgood.1, hgood.2⟩

/-- C9 counterexample: a store failure during create is answered with
HTTP 400 by the create handler, not with Internal 500 as the claim
states. -/
theorem create_store_error_counterexample :
    createHandlerStatus createReqGood (Except.error "connection refused") = 400 ∧
    createHandlerStatus createReqGood (Except.error "connection refused") ≠ 500 :=
  ⟨rfl, by decide⟩

/-- C9 amended: store errors are wrapped with context naming the
attempted operation, but the surfaced HTTP status is that of the
invoking handler rather than uniformly Internal: create and update
answer 400 for any service error, get and delete answer 404 (the
no-rows point lookup included), and only list and search answer 500. -/
theorem store_error_status_mapping (e : String) (req : CreateExperienceRequest)
    (hreq : validateCreateRequest req = none) :
    serviceCreateResult req (Except.error e) =
      Except.error ("failed to create experience: " ++ e) ∧
    createHandlerStatus req (Except.error e) = 400 ∧
    repoUpdateResult (StoreLookup.failure e) =
      Except.error ("failed to update experience: " ++ e) ∧
    updateHandlerStatus (StoreLookup.failure e) = 400 ∧
    repoGetByIdResult (StoreLookup.failure e) =
      Except.error ("failed to get experience: " ++ e) ∧
    getHandlerStatus (StoreLookup.failure e) = 404 ∧
    getHandlerStatus StoreLookup.noRows = 404 ∧
    repoDeleteResult (StoreExec.failure e) =
      Except.error ("failed to delete experience: " ++ e) ∧
    deleteHandlerStatus (StoreExec.failure e) = 404 ∧
    repoListResult (Except.error e) =
      Except.error ("failed to list experiences: " ++ e) ∧
    listHandlerStatus (Except.error e) = 500 ∧
    repoSearchErrResult (Except.error e) =
      Except.error ("failed to count experiences: " ++ e) ∧
    searchHandlerStatus (Except.error e) = 500 := by
  refine ⟨?_, ?_, rfl, rfl, rfl, rfl, rfl, rfl, rfl, rfl, rfl, rfl, rfl⟩
  · simp [serviceCreateResult, hreq, repoCreateResult]
  · simp [createHandlerStatus, serviceCreateResult, hreq, repoCreateResult]

/-- Witness for C9 (amended): the concrete store failure "db down" maps
to 400 for create, 404 for get and 500 for list. -/
theorem store_error_status_mapping_witness :
    createHandlerStatus createReqGood (Except.error "db down") = 400 ∧
    getHandlerStatus (StoreLookup.failure "db down") = 404 ∧
    listHandlerStatus (Except.error "db down") = 500 :=
  have h := store_error_status_mapping "db down" createReqGood rfl
  ⟨h.2.1, h.2.2.2.2.2.1, h.2.2.2.2.2.2.2.2.2.2.1⟩

/-- C10: UpdateLastUsedAt modifies exactly the rows whose key_hash
matches the given hash, setting last_used_at and updated_at in each to
the one statement timestamp while every other column keeps its value;
rows with any other hash are unchanged, and the call succeeds even when
no row matches. -/
theorem update_last_used_frame (store : List APIKey) (keyHash : String) (now : Int) :
    (UpdateLastUsedAt store keyHash now).2 = Except.ok () ∧
    (UpdateLastUsedAt store keyHash now).1.length = store.length ∧
    (∀ i (h1 : i < store.length) (h2 : i < (UpdateLastUsedAt store keyHash now).1.length),
       ((store.get ⟨i, h1⟩).keyHash ≠ keyHash →
          (UpdateLastUsedAt store keyHash now).1.get ⟨i, h2⟩ = store.get ⟨i, h1⟩) ∧
       ((store.get ⟨i, h1⟩).keyHash = keyHash →
          ((UpdateLastUsedAt store keyHash now).1.get ⟨i, h2⟩).lastUsedAt = some now ∧
          ((UpdateLastUsedAt store keyHash now).1.get ⟨i, h2⟩).updatedAt = now ∧
          ((UpdateLastUsedAt store keyHash now).1.get ⟨i, h2⟩).id = (store.get ⟨i, h1⟩).id ∧
          ((UpdateLastUsedAt store keyHash now).1.get ⟨i, h2⟩).keyHash =
            (store.get ⟨i, h1⟩).keyHash ∧
          ((UpdateLastUsedAt store keyHash now).1.get ⟨i, h2⟩).name =
            (store.get ⟨i, h1⟩).name ∧
          ((UpdateLastUsedAt store keyHash now).1.get ⟨i, h2⟩).isActive =
            (store.get ⟨i, h1⟩).isActive ∧
          ((UpdateLastUsedAt store keyHash now).1.get ⟨i, h2⟩).createdAt =
            (store.get ⟨i, h1⟩).createdAt)) := by
  refine ⟨rfl, by simp [UpdateLastUsedAt], ?_⟩
  intro i h1 h2
  have hget : (UpdateLastUsedAt store keyHash now).1.get ⟨i, h2⟩ =
      (if (store.get ⟨i, h1⟩).keyHash == keyHash
       then { store.get ⟨i, h1⟩ with lastUsedAt := some now, updatedAt := now }
       else store.get ⟨i, h1⟩) := by
    show (store.map _).get ⟨i, h2⟩ = _
    rw [List.get_eq_getElem, List.getElem_map]
    rfl
  constructor
  · intro hne
    rw [hget, if_neg (by simp only [beq_iff_eq]; exact hne)]
  · intro heq
    rw [hget, if_pos (by simp only [beq_iff_eq]; exact heq)]
    exact ⟨rfl, rfl, rfl, rfl, rfl, rfl, rfl⟩

/-- Witness for C10: updating the matching key at a concrete timestamp
stamps both timestamps and keeps the other columns. -/
theorem update_last_used_frame_witness :
    ((UpdateLastUsedAt [apiKeyActiveW] (HashAPIKey "secret-key-1") 7).1.get
        ⟨0, by decide⟩).lastUsedAt = some 7 ∧
    ((UpdateLastUsedAt [apiKeyActiveW] (HashAPIKey "secret-key-1") 7).1.get
        ⟨0, by decide⟩).isActive = apiKeyActiveW.isActive :=
  have h := (update_last_used_frame [apiKeyActiveW] (HashAPIKey "secret-key-1") 7).2.2 0
    (by decide) (by decide)
  ⟨(h.2 rfl).1, (h.2 rfl).2.2.2.2.2.1⟩

/-- Sanity check of the embedded digest against the FIPS 180-4 test
vectors, matching the expected values in the repository's hash tests. -/
theorem hashAPIKey_fips_vectors :
    HashAPIKey "" = "e3b0c44298fc1c149afbf4c8996fb92427ae41e4649b934ca495991b7852b855" ∧
    HashAPIKey "abc" = "ba7816bf8f01cfea414140de5dae2223b00361a396177a9cb410ff61f20015ad" := by
  constructor <;> decide
